import Mathlib

/-!
Shallow embedding of `src/zipCheck.cpp` (a PKWare ZIP local-file-header
checker) and proofs of the specification claims about it.

Modelling conventions:
* A byte is `Fin 256`; the byte source is a `List Byte` read from offset 0.
  Per the spec's byte-source contract, a read of `n` bytes fails when fewer
  than `n` bytes remain, and a forward seek past end-of-data fails.
* Machine integers are `Nat` with explicit `% 2 ^ 32` where the C++
  arithmetic wraps.  The sum
  `fileNameLength + extraFieldLength + compressedSize` in the source is
  uint16 + uint16 + uint32: the uint16s are promoted to `int` (no overflow
  there, the sum is at most 131070), then added to a uint32, so the whole
  sum is reduced modulo 2^32 before it reaches `seekg`.
* `std::ifstream` that cannot be opened is modelled by `none`; an opened
  source carries its byte content.
-/

/-- A byte of the input stream. -/
abbrev Byte := Fin 256

/-- Little-endian interpretation of a byte list, as the raw
`reinterpret_cast` reads of the source do on a little-endian machine. -/
def leNat : List Byte → Nat
  | [] => 0
  | b :: bs => b.val + 256 * leNat bs

/-- The bytes a sequential read of `n` bytes starting at `pos` yields
(meaningful when `pos + n ≤ data.length`, which is what the stream's
read-failure checks test). -/
def readBytes (data : List Byte) (pos n : Nat) : List Byte :=
  (data.drop pos).take n

/-- Source line 16: signature of a PK .zip file. -/
def PK_SIGNATURE : Nat := 0x04034b50

/-- Source lines 21-40: the `ErrorCode` enum, in declaration order. -/
inductive ErrorCode where
  | OK
  | ERR_ARGUMENTS
  | ERR_FILE_OPEN
  | ERR_MAGIC_NUMBER
  | ERR_HEADER_SIGNATURE
  | ERR_HEADER_READ
  | ERR_HEADER_SIGNATURE_READ
  | ERR_HEADER_VERSION_NEEDED_READ
  | ERR_HEADER_FLAGS_READ
  | ERR_HEADER_COMPRESSION_METHOD_READ
  | ERR_HEADER_LAST_MOD_TIME_READ
  | ERR_HEADER_MOD_DATE_READ
  | ERR_HEADER_CRC32_READ
  | ERR_HEADER_COMPRESSED_SIZE_READ
  | ERR_HEADER_UNCOMPRESSED_SIZE_READ
  | ERR_HEADER_FILENAME_LENGTH_READ
  | ERR_HEADER_EXTRA_FIELD_LENGTH_READ
  | ERR_READ_FAIL
  deriving DecidableEq, Repr

open ErrorCode

/-- The numeric value the C enum assigns to each `ErrorCode` (18 values,
`OK = 0` and the rest consecutive). -/
def toCode : ErrorCode → Nat
  | OK => 0
  | ERR_ARGUMENTS => 1
  | ERR_FILE_OPEN => 2
  | ERR_MAGIC_NUMBER => 3
  | ERR_HEADER_SIGNATURE => 4
  | ERR_HEADER_READ => 5
  | ERR_HEADER_SIGNATURE_READ => 6
  | ERR_HEADER_VERSION_NEEDED_READ => 7
  | ERR_HEADER_FLAGS_READ => 8
  | ERR_HEADER_COMPRESSION_METHOD_READ => 9
  | ERR_HEADER_LAST_MOD_TIME_READ => 10
  | ERR_HEADER_MOD_DATE_READ => 11
  | ERR_HEADER_CRC32_READ => 12
  | ERR_HEADER_COMPRESSED_SIZE_READ => 13
  | ERR_HEADER_UNCOMPRESSED_SIZE_READ => 14
  | ERR_HEADER_FILENAME_LENGTH_READ => 15
  | ERR_HEADER_EXTRA_FIELD_LENGTH_READ => 16
  | ERR_READ_FAIL => 17

/-- Source lines 107-129: `errorCodeToString`. -/
def errorCodeToString : ErrorCode → String
  | OK => "OK"
  | ERR_ARGUMENTS => "ERR_ARGUMENTS"
  | ERR_FILE_OPEN => "ERR_FILE_OPEN"
  | ERR_MAGIC_NUMBER => "ERR_MAGIC_NUMBER"
  | ERR_HEADER_SIGNATURE => "ERR_HEADER_SIGNATURE"
  | ERR_HEADER_READ => "ERR_HEADER_READ"
  | ERR_HEADER_SIGNATURE_READ => "ERR_HEADER_SIGNATURE_READ"
  | ERR_HEADER_VERSION_NEEDED_READ => "ERR_HEADER_VERSION_NEEDED_READ"
  | ERR_HEADER_FLAGS_READ => "ERR_HEADER_FLAGS_READ"
  | ERR_HEADER_COMPRESSION_METHOD_READ => "ERR_HEADER_COMPRESSION_METHOD_READ"
  | ERR_HEADER_LAST_MOD_TIME_READ => "ERR_HEADER_LAST_MOD_TIME_READ"
  | ERR_HEADER_MOD_DATE_READ => "ERR_HEADER_MOD_DATE_READ"
  | ERR_HEADER_CRC32_READ => "ERR_HEADER_CRC32_READ"
  | ERR_HEADER_COMPRESSED_SIZE_READ => "ERR_HEADER_COMPRESSED_SIZE_READ"
  | ERR_HEADER_UNCOMPRESSED_SIZE_READ => "ERR_HEADER_UNCOMPRESSED_SIZE_READ"
  | ERR_HEADER_FILENAME_LENGTH_READ => "ERR_HEADER_FILENAME_LENGTH_READ"
  | ERR_HEADER_EXTRA_FIELD_LENGTH_READ => "ERR_HEADER_EXTRA_FIELD_LENGTH_READ"
  | ERR_READ_FAIL => "ERR_READ_FAIL"

/-- Source lines 136-160: `compressionMethodToString`. -/
def compressionMethodToString (method : Nat) : String :=
  match method with
  | 0 => "no compression"
  | 1 => "shrunk"
  | 2 => "reduced with compression factor 1"
  | 3 => "reduced with compression factor 2"
  | 4 => "reduced with compression factor 3"
  | 5 => "reduced with compression factor 4"
  | 6 => "imploded"
  | 7 => "reserved"
  | 8 => "deflated"
  | 9 => "enhanced deflated"
  | 10 => "PKWare DCL imploded"
  | 11 => "reserved"
  | 12 => "compressed using BZIP2"
  | 13 => "reserved"
  | 14 => "LZMA"
  | 15 => "reserved"
  | 16 => "reserved"
  | 17 => "reserved"
  | 18 => "compressed using IBM TERSE"
  | 19 => "IBM LZ77 z"
  | 98 => "PPMd version I, Rev 1"
  | _ => "unknown"

/-- Source lines 45-57: `ZipLocalFileHeader`.  Fields hold the little-endian
values of the raw 2- or 4-byte reads (so they are below 2^16 resp. 2^32). -/
structure ZipLocalFileHeader where
  signature : Nat
  versionNeeded : Nat
  flags : Nat
  compressionMethod : Nat
  lastModTime : Nat
  lastModDate : Nat
  crc32 : Nat
  compressedSize : Nat
  uncompressedSize : Nat
  fileNameLength : Nat
  extraFieldLength : Nat
  deriving DecidableEq, Repr

/-- Source lines 66-80: one inner-loop iteration of `generateCrc32Table`
(`crc = (crc >> 1) ^ polynomial` when the low bit is set, else `crc >>= 1`). -/
def crc32Step (crc : Nat) : Nat :=
  if crc % 2 = 1 then (crc / 2) ^^^ 0xedb88320 else crc / 2

/-- Source lines 70-77: the inner loop of `generateCrc32Table` runs
`crc32Step` exactly `j` times (the source counts `j = 8` down to 1). -/
def crc32Rounds : Nat → Nat → Nat
  | 0, crc => crc
  | j + 1, crc => crc32Rounds j (crc32Step crc)

/-- Source lines 61 and 66-80: the 256-entry CRC-32 table, entry `i` being
the result of 8 shift/xor rounds started from `i`. -/
def generateCrc32Table : List Nat :=
  (List.range 256).map (fun i => crc32Rounds 8 i)

/-- Source lines 89-99: `computeCrc32`.  The register starts at
`0xffffffff`; per byte, `tableIndex = (uint8)((crc & 0xff) ^ byte)` and
`crc = table[tableIndex] ^ (crc >> 8)`; the result is the bitwise
complement (xor with `0xffffffff`, since the register stays below 2^32). -/
def computeCrc32 (table : List Nat) (data : List Byte) : Nat :=
  (data.foldl
    (fun crcValue b =>
      table.getD (((crcValue % 256) ^^^ b.val) % 256) 0 ^^^ crcValue / 256)
    0xffffffff) ^^^ 0xffffffff

/-- Source line 240: the magic pre-check on the 4 bytes just read,
`buffer[0] == 0x50 && buffer[1] == 0x4B && buffer[2] == 0x03 && buffer[3] == 0x04`. -/
def magicOk (data : List Byte) : Bool :=
  readBytes data 0 4 == [0x50, 0x4B, 0x03, 0x04]

/-- Source lines 169-224: `readLocalFileHeader`.  Each
`if (!file.read(..., n)) return ERR;` fails exactly when fewer than `n`
bytes remain, so the first failing field is determined by the cumulative
offsets 4, 6, 8, 10, 12, 14, 18, 22, 26, 28, 30 past `pos`.  After all
eleven fields are read, the decoded signature is compared with
`PK_SIGNATURE`.  (Line 187 also prints the compression-method label; that
side effect does not influence the returned value.) -/
def readLocalFileHeader (data : List Byte) (pos : Nat) :
    Except ErrorCode ZipLocalFileHeader :=
  if data.length < pos + 4 then .error ERR_HEADER_SIGNATURE_READ
  else if data.length < pos + 6 then .error ERR_HEADER_VERSION_NEEDED_READ
  else if data.length < pos + 8 then .error ERR_HEADER_FLAGS_READ
  else if data.length < pos + 10 then .error ERR_HEADER_COMPRESSION_METHOD_READ
  else if data.length < pos + 12 then .error ERR_HEADER_LAST_MOD_TIME_READ
  else if data.length < pos + 14 then .error ERR_HEADER_MOD_DATE_READ
  else if data.length < pos + 18 then .error ERR_HEADER_CRC32_READ
  else if data.length < pos + 22 then .error ERR_HEADER_COMPRESSED_SIZE_READ
  else if data.length < pos + 26 then .error ERR_HEADER_UNCOMPRESSED_SIZE_READ
  else if data.length < pos + 28 then .error ERR_HEADER_FILENAME_LENGTH_READ
  else if data.length < pos + 30 then .error ERR_HEADER_EXTRA_FIELD_LENGTH_READ
  else if leNat (readBytes data pos 4) ≠ PK_SIGNATURE then
    .error ERR_HEADER_SIGNATURE
  else
    .ok
      { signature := leNat (readBytes data pos 4)
        versionNeeded := leNat (readBytes data (pos + 4) 2)
        flags := leNat (readBytes data (pos + 6) 2)
        compressionMethod := leNat (readBytes data (pos + 8) 2)
        lastModTime := leNat (readBytes data (pos + 10) 2)
        lastModDate := leNat (readBytes data (pos + 12) 2)
        crc32 := leNat (readBytes data (pos + 14) 4)
        compressedSize := leNat (readBytes data (pos + 18) 4)
        uncompressedSize := leNat (readBytes data (pos + 22) 4)
        fileNameLength := leNat (readBytes data (pos + 26) 2)
        extraFieldLength := leNat (readBytes data (pos + 28) 2) }

/-- Source lines 227-260: `isValidZipFile`.  `none` models a file that
cannot be opened.  The initial 4-byte read fails exactly when the input is
shorter than 4 bytes; after the magic check the source seeks back to
offset 0 and `readLocalFileHeader` decodes from there; finally the source
seeks forward from position 30 by
`fileNameLength + extraFieldLength + compressedSize` — computed in C++
unsigned 32-bit arithmetic, hence the `% 2 ^ 32` — and fails when that
lands past end-of-data. -/
def isValidZipFile (src : Option (List Byte)) : ErrorCode × String :=
  match src with
  | none => (ERR_FILE_OPEN, "could not open file")
  | some data =>
    if data.length < 4 then (ERR_READ_FAIL, "failed to read from file")
    else if magicOk data then
      match readLocalFileHeader data 0 with
      | .error errorCode => (errorCode, errorCodeToString errorCode)
      | .ok header =>
        if 30 + (header.fileNameLength + header.extraFieldLength
              + header.compressedSize) % 4294967296 ≤ data.length then
          (OK, "the file is a valid ZIP file")
        else (ERR_READ_FAIL, "failed to seek in file")
    else (ERR_MAGIC_NUMBER, "incorrect magic number")

/-- Source lines 262-281: `main`.  With fewer than two argv entries it
returns `ERR_ARGUMENTS`; otherwise it returns the `ErrorCode` of
`isValidZipFile` as the process exit code. -/
def mainRun (argc : Nat) (src : Option (List Byte)) : Nat :=
  if argc < 2 then toCode ERR_ARGUMENTS
  else toCode (isValidZipFile src).fst

/-- The ASCII bytes of the text 123456789, the standard CRC-32 check input. -/
def check123456789 : List Byte := [49, 50, 51, 52, 53, 54, 55, 56, 57]

/-- The minimal well-formed input: magic bytes followed by 26 zero bytes
(all header fields zero), 30 bytes in total, no trailing bytes. -/
def minimal30 : List Byte :=
  [0x50, 0x4B, 0x03, 0x04] ++ List.replicate 26 0

/-- The sum the trailer seek of source line 254 is based on, in the
source's order `fileNameLength + extraFieldLength + compressedSize`, taken
over the raw header bytes without any modular reduction. -/
def declaredTrailer (data : List Byte) : Nat :=
  leNat (readBytes data 26 2) + leNat (readBytes data 28 2)
    + leNat (readBytes data 18 4)

/-- For an input that passed the magic check (hence has at least 4 bytes),
the field at which the fixed-header decode runs out of bytes, as a function
of the total byte length (meaningful for lengths in [4, 30)). -/
def errAtLength (n : Nat) : ErrorCode :=
  if n < 6 then ERR_HEADER_VERSION_NEEDED_READ
  else if n < 8 then ERR_HEADER_FLAGS_READ
  else if n < 10 then ERR_HEADER_COMPRESSION_METHOD_READ
  else if n < 12 then ERR_HEADER_LAST_MOD_TIME_READ
  else if n < 14 then ERR_HEADER_MOD_DATE_READ
  else if n < 18 then ERR_HEADER_CRC32_READ
  else if n < 22 then ERR_HEADER_COMPRESSED_SIZE_READ
  else if n < 26 then ERR_HEADER_UNCOMPRESSED_SIZE_READ
  else if n < 28 then ERR_HEADER_FILENAME_LENGTH_READ
  else ERR_HEADER_EXTRA_FIELD_LENGTH_READ

/-- A 14-byte input (10 bytes after the magic): the magic bytes followed by
10 zero bytes. -/
def trunc14 : List Byte := [0x50, 0x4B, 0x03, 0x04] ++ List.replicate 10 0

/-- A valid 30-byte header declaring compressedSize = 0xFFFFFFFF (bytes
18-21) and fileNameLength = 1 (bytes 26-27), with no trailing bytes: its
declared trailer is 0x100000000, which wraps to 0 in 32-bit arithmetic. -/
def overflowInput : List Byte :=
  [0x50, 0x4B, 0x03, 0x04] ++ List.replicate 14 0
    ++ [0xFF, 0xFF, 0xFF, 0xFF] ++ List.replicate 4 0
    ++ [0x01, 0x00] ++ [0x00, 0x00]

/-- A valid 30-byte header declaring fileNameLength = 5 (bytes 26-27) with
no trailing bytes: the declared trailer exceeds the 0 remaining bytes. -/
def shortTrailer : List Byte :=
  [0x50, 0x4B, 0x03, 0x04] ++ List.replicate 22 0 ++ [0x05, 0x00]
    ++ [0x00, 0x00]

/-- Thirty zero bytes: a full-length header whose decoded signature is 0. -/
def zeros30 : List Byte := List.replicate 30 0

/-- The first 8 bytes shared by the compression-method witness inputs:
magic, then versionNeeded = 0 and flags = 0. -/
def methodPre : List Byte := [0x50, 0x4B, 0x03, 0x04] ++ List.replicate 4 0

/-- The 20 bytes following the compression-method field in the witness
inputs: all zero. -/
def methodSuf : List Byte := List.replicate 20 0

lemma magicOk_signature {data : List Byte} (h : magicOk data = true) :
    leNat (readBytes data 0 4) = PK_SIGNATURE := by
  unfold magicOk at h
  rw [beq_iff_eq] at h
  rw [h]
  decide

set_option maxHeartbeats 1600000 in
lemma readLocalFileHeader_short {data : List Byte} (h4 : 4 ≤ data.length)
    (h30 : data.length < 30) :
    readLocalFileHeader data 0 = .error (errAtLength data.length) := by
  unfold readLocalFileHeader errAtLength
  split_ifs <;> first | rfl | omega

set_option maxHeartbeats 1600000 in
lemma readLocalFileHeader_ok {data : List Byte} (h30 : 30 ≤ data.length)
    (hsig : leNat (readBytes data 0 4) = PK_SIGNATURE) :
    readLocalFileHeader data 0 =
      .ok
        { signature := leNat (readBytes data 0 4)
          versionNeeded := leNat (readBytes data 4 2)
          flags := leNat (readBytes data 6 2)
          compressionMethod := leNat (readBytes data 8 2)
          lastModTime := leNat (readBytes data 10 2)
          lastModDate := leNat (readBytes data 12 2)
          crc32 := leNat (readBytes data 14 4)
          compressedSize := leNat (readBytes data 18 4)
          uncompressedSize := leNat (readBytes data 22 4)
          fileNameLength := leNat (readBytes data 26 2)
          extraFieldLength := leNat (readBytes data 28 2) } := by
  unfold readLocalFileHeader
  simp only [Nat.zero_add]
  rw [if_neg (not_not_intro hsig)]
  repeat rw [if_neg (by omega)]

/-- Full behavioral characterization of the validator on an opened source:
the outcome is a function of the total length, the magic bytes, and the
trailer sum reduced modulo 2^32. -/
lemma isValidZipFile_char (data : List Byte) :
    isValidZipFile (some data) =
      if data.length < 4 then (ERR_READ_FAIL, "failed to read from file")
      else if magicOk data = false then
        (ERR_MAGIC_NUMBER, "incorrect magic number")
      else if data.length < 30 then
        (errAtLength data.length, errorCodeToString (errAtLength data.length))
      else if data.length < 30 + declaredTrailer data % 4294967296 then
        (ERR_READ_FAIL, "failed to seek in file")
      else (OK, "the file is a valid ZIP file") := by
  show (if data.length < 4 then ((ERR_READ_FAIL : ErrorCode), "failed to read from file")
    else if magicOk data then
      match readLocalFileHeader data 0 with
      | .error errorCode => (errorCode, errorCodeToString errorCode)
      | .ok header =>
        if 30 + (header.fileNameLength + header.extraFieldLength
              + header.compressedSize) % 4294967296 ≤ data.length then
          (OK, "the file is a valid ZIP file")
        else (ERR_READ_FAIL, "failed to seek in file")
    else (ERR_MAGIC_NUMBER, "incorrect magic number")) = _
  by_cases h4 : data.length < 4
  · rw [if_pos h4, if_pos h4]
  · rw [if_neg h4, if_neg h4]
    rcases Bool.eq_false_or_eq_true (magicOk data) with hm | hm
    · rw [if_pos hm, if_neg (by simp [hm])]
      by_cases h30 : data.length < 30
      · rw [readLocalFileHeader_short (by omega) h30, if_pos h30]
      · rw [readLocalFileHeader_ok (by omega) (magicOk_signature hm),
          if_neg h30]
        simp only [declaredTrailer]
        split_ifs <;> first | rfl | omega
    · rw [if_neg (by simp [hm]), if_pos hm]

lemma errAtLength_ne_signature (n : Nat) :
    errAtLength n ≠ ERR_HEADER_SIGNATURE := by
  unfold errAtLength
  split_ifs <;> decide

lemma magicOk_length {data : List Byte} (h : magicOk data = true) :
    4 ≤ data.length := by
  unfold magicOk at h
  rw [beq_iff_eq] at h
  have hlen : (readBytes data 0 4).length = 4 := by rw [h]; rfl
  unfold readBytes at hlen
  simp only [List.length_take, List.length_drop, Nat.sub_zero] at hlen
  omega

lemma readBytes_append (pre x : List Byte) (off w : Nat)
    (hw : off + w ≤ pre.length) :
    readBytes (pre ++ x) off w = readBytes pre off w := by
  unfold readBytes
  rw [List.take_drop, List.take_drop, List.take_append_eq_append_take,
    Nat.sub_eq_zero_of_le hw]
  simp

lemma readBytes_skip2 (pre suf : List Byte) (a1 a2 b1 b2 : Byte)
    (off w : Nat) (hpre : pre.length = 8) (hoff : 10 ≤ off) :
    readBytes (pre ++ a1 :: a2 :: suf) off w
      = readBytes (pre ++ b1 :: b2 :: suf) off w := by
  unfold readBytes
  obtain ⟨k, rfl⟩ : ∃ k, off = 10 + k := ⟨off - 10, by omega⟩
  have hnil : List.drop (10 + k) pre = [] :=
    List.drop_eq_nil_of_le (by omega)
  have h2 : 10 + k - 8 = k + 2 := by omega
  have h1 : ∀ (x y : Byte),
      List.drop (10 + k) (pre ++ x :: y :: suf) = List.drop k suf := by
    intro x y
    rw [List.drop_append_eq_append_drop, hnil, List.nil_append, hpre, h2]
    rfl
  rw [h1, h1]

/-- C1 counterexample: a valid 30-byte header declaring
compressedSize = 0xFFFFFFFF and fileNameLength = 1 has a declared trailer
of 2^32 bytes while 0 bytes remain, yet the validator returns OK: the C++
sum is not widened, it wraps modulo 2^32 to an advance of 0, so the seek
trivially succeeds instead of failing with ReadFailure. -/
theorem trailer_overflow_accepted :
    overflowInput.length = 30
    ∧ declaredTrailer overflowInput = 4294967296
    ∧ declaredTrailer overflowInput % 4294967296 = 0
    ∧ isValidZipFile (some overflowInput)
        = (OK, "the file is a valid ZIP file") :=
  ⟨by decide, by decide, by decide, by decide⟩

/-- C1 amended: the advance is computed in 32-bit unsigned arithmetic
(reduced modulo 2^32), and for every input with a valid 30-byte fixed
header the trailer bounds check fails with the seek ReadFailure exactly
when the wrapped advance exceeds the bytes remaining after the 30-byte
header; in particular this agrees with the original claim whenever the
true sum is below 2^32. -/
theorem trailer_bounds_check (data : List Byte) (hm : magicOk data = true)
    (h30 : 30 ≤ data.length) :
    isValidZipFile (some data) = (ERR_READ_FAIL, "failed to seek in file")
      ↔ data.length < 30 + declaredTrailer data % 4294967296 := by
  rw [isValidZipFile_char, if_neg (by omega), if_neg (by simp [hm]),
    if_neg (by omega)]
  by_cases h : data.length < 30 + declaredTrailer data % 4294967296
  · rw [if_pos h]
    simp [h]
  · rw [if_neg h]
    simp [h]

/-- C1 witness: a valid 30-byte header declaring fileNameLength = 5 with
no trailing bytes is rejected with the seek ReadFailure. -/
theorem trailer_bounds_check_witness :
    magicOk shortTrailer = true ∧ 30 ≤ shortTrailer.length
    ∧ isValidZipFile (some shortTrailer)
        = (ERR_READ_FAIL, "failed to seek in file") :=
  ⟨by decide, by decide,
    (trailer_bounds_check shortTrailer (by decide) (by decide)).mpr
      (by decide)⟩

/-- C2 counterexample: on the 14-byte input (10 bytes after the first 4)
the validator fails at the crc32 read, not at the compressionMethod read
the claim names. -/
theorem fourteen_bytes_fail_at_crc32 :
    isValidZipFile (some trunc14)
      = (ERR_HEADER_CRC32_READ, "ERR_HEADER_CRC32_READ")
    ∧ ERR_HEADER_CRC32_READ ≠ ERR_HEADER_COMPRESSION_METHOD_READ :=
  ⟨by decide, by decide⟩

/-- C2 amended: for every input that passes the magic pre-check but is
shorter than 30 bytes in total, the outcome is the field-specific read
error at which the decode (restarted from offset 0) runs out of bytes, a
deterministic function of the total length (errAtLength); an input of 14
bytes total fails at the crc32 read, while the compressionMethod read
error occurs for total lengths 8 and 9. -/
theorem truncated_header_field_error (data : List Byte)
    (hm : magicOk data = true) (h30 : data.length < 30) :
    isValidZipFile (some data)
      = (errAtLength data.length,
        errorCodeToString (errAtLength data.length)) := by
  have h4 : 4 ≤ data.length := magicOk_length hm
  rw [isValidZipFile_char, if_neg (by omega), if_neg (by simp [hm]),
    if_pos h30]

/-- C2 witness: the amended claim evaluated on the 14-byte input. -/
theorem truncated_header_field_error_witness :
    magicOk trunc14 = true ∧ trunc14.length < 30
    ∧ isValidZipFile (some trunc14)
        = (errAtLength trunc14.length,
          errorCodeToString (errAtLength trunc14.length))
    ∧ errAtLength trunc14.length = ERR_HEADER_CRC32_READ :=
  ⟨by decide, by decide,
    truncated_header_field_error trunc14 (by decide) (by decide), by decide⟩

/-- C3: the signature comparison fires only after all eleven fields are
read (on a full-length header whose decoded signature differs from
0x04034b50 the result is HeaderSignatureMismatch), and once the magic
pre-check has passed it can no longer fail: the validator never returns
HeaderSignatureMismatch on any source, because the decode re-reads the
same four magic bytes after the rewind. -/
theorem signature_mismatch_unreachable :
    (∀ data : List Byte, 30 ≤ data.length →
      leNat (readBytes data 0 4) ≠ PK_SIGNATURE →
      readLocalFileHeader data 0 = .error ERR_HEADER_SIGNATURE)
    ∧ ∀ src : Option (List Byte),
        (isValidZipFile src).fst ≠ ERR_HEADER_SIGNATURE := by
  constructor
  · intro data h30 hsig
    unfold readLocalFileHeader
    repeat rw [if_neg (by omega)]
    rw [if_pos hsig]
  · intro src
    rcases src with _ | data
    · decide
    · rw [isValidZipFile_char]
      split_ifs <;>
        first
          | decide
          | exact errAtLength_ne_signature data.length

/-- C3 witness: thirty zero bytes decode fully and fail the signature
check inside readLocalFileHeader, while the full validator (whose magic
pre-check rejects that input earlier) never surfaces that outcome. -/
theorem signature_mismatch_unreachable_witness :
    readLocalFileHeader zeros30 0 = .error ERR_HEADER_SIGNATURE
    ∧ (isValidZipFile (some zeros30)).fst ≠ ERR_HEADER_SIGNATURE :=
  ⟨signature_mismatch_unreachable.1 zeros30 (by decide) (by decide),
    signature_mismatch_unreachable.2 (some zeros30)⟩

/-- C4: the CRC-32 checksum over the table generated from polynomial
0xEDB88320 is deterministic; the empty buffer checksums to 0x00000000; the
ASCII bytes of 123456789 checksum to 0xCBF43926. -/
theorem crc32_reference_values :
    (∀ bs : List Byte,
      computeCrc32 generateCrc32Table bs = computeCrc32 generateCrc32Table bs)
    ∧ computeCrc32 generateCrc32Table [] = 0x00000000
    ∧ computeCrc32 generateCrc32Table check123456789 = 0xCBF43926 :=
  ⟨fun bs => rfl, by decide, by decide⟩

/-- C5: the minimal well-formed 30-byte header with zero-length name,
extra field and payload validates as OK with the fixed success message. -/
theorem minimal_header_ok :
    isValidZipFile (some minimal30) = (OK, "the file is a valid ZIP file") := by
  decide

/-- C6: any input of at least 4 bytes whose first four bytes differ in any
position from 0x50 0x4B 0x03 0x04 is rejected as MagicNumberMismatch,
regardless of all subsequent bytes. -/
theorem magic_mismatch_rejected (b0 b1 b2 b3 : Byte) (rest : List Byte)
    (h : ¬(b0 = 0x50 ∧ b1 = 0x4B ∧ b2 = 0x03 ∧ b3 = 0x04)) :
    isValidZipFile (some (b0 :: b1 :: b2 :: b3 :: rest))
      = (ERR_MAGIC_NUMBER, "incorrect magic number") := by
  have hm : magicOk (b0 :: b1 :: b2 :: b3 :: rest) = false := by
    by_cases hm : magicOk (b0 :: b1 :: b2 :: b3 :: rest) = true
    · exfalso
      apply h
      unfold magicOk at hm
      rw [beq_iff_eq] at hm
      have heq : ([b0, b1, b2, b3] : List Byte) = [0x50, 0x4B, 0x03, 0x04] :=
        hm
      simp only [List.cons.injEq] at heq
      exact ⟨heq.1, heq.2.1, heq.2.2.1, heq.2.2.2.1⟩
    · simpa using hm
  rw [isValidZipFile_char, if_neg (by simp only [List.length_cons]; omega),
    if_pos hm]

/-- C6 witness: four zero bytes followed by arbitrary content. -/
theorem magic_mismatch_rejected_witness :
    isValidZipFile (some (0 :: 0 :: 0 :: 0 :: [99]))
      = (ERR_MAGIC_NUMBER, "incorrect magic number") :=
  magic_mismatch_rejected 0 0 0 0 [99] (by decide)

/-- C7: every opened input shorter than 4 bytes makes the magic
pre-check's 4-byte read fail with ReadFailure, while FileOpenError arises
only for a source that cannot be opened at all. -/
theorem short_input_read_failure :
    (∀ data : List Byte, data.length < 4 →
      isValidZipFile (some data) = (ERR_READ_FAIL, "failed to read from file"))
    ∧ isValidZipFile none = (ERR_FILE_OPEN, "could not open file") := by
  refine ⟨fun data h => ?_, rfl⟩
  rw [isValidZipFile_char, if_pos h]

/-- C7 witness: a single-byte input is rejected with ReadFailure. -/
theorem short_input_read_failure_witness :
    ([80] : List Byte).length < 4
    ∧ isValidZipFile (some [80])
        = (ERR_READ_FAIL, "failed to read from file") :=
  ⟨by decide, short_input_read_failure.1 [80] (by decide)⟩

/-- C8: the eighteen outcome identities carry the numeric codes 0..17 in
declaration order, the modelled process exit code equals the returned
outcome's numeric value whenever a path argument is supplied, and exit
code 0 arises exactly for the OK outcome. -/
theorem outcome_codes_and_exit :
    toCode OK = 0 ∧ toCode ERR_ARGUMENTS = 1 ∧ toCode ERR_FILE_OPEN = 2
    ∧ toCode ERR_MAGIC_NUMBER = 3 ∧ toCode ERR_HEADER_SIGNATURE = 4
    ∧ toCode ERR_HEADER_READ = 5 ∧ toCode ERR_HEADER_SIGNATURE_READ = 6
    ∧ toCode ERR_HEADER_VERSION_NEEDED_READ = 7
    ∧ toCode ERR_HEADER_FLAGS_READ = 8
    ∧ toCode ERR_HEADER_COMPRESSION_METHOD_READ = 9
    ∧ toCode ERR_HEADER_LAST_MOD_TIME_READ = 10
    ∧ toCode ERR_HEADER_MOD_DATE_READ = 11
    ∧ toCode ERR_HEADER_CRC32_READ = 12
    ∧ toCode ERR_HEADER_COMPRESSED_SIZE_READ = 13
    ∧ toCode ERR_HEADER_UNCOMPRESSED_SIZE_READ = 14
    ∧ toCode ERR_HEADER_FILENAME_LENGTH_READ = 15
    ∧ toCode ERR_HEADER_EXTRA_FIELD_LENGTH_READ = 16
    ∧ toCode ERR_READ_FAIL = 17
    ∧ (∀ (argc : Nat) (src : Option (List Byte)), 2 ≤ argc →
        mainRun argc src = toCode (isValidZipFile src).fst)
    ∧ (∀ e : ErrorCode, toCode e = 0 ↔ e = OK) := by
  refine ⟨rfl, rfl, rfl, rfl, rfl, rfl, rfl, rfl, rfl, rfl, rfl, rfl, rfl,
    rfl, rfl, rfl, rfl, rfl, fun argc src h => ?_, fun e => ?_⟩
  · unfold mainRun
    rw [if_neg (by omega)]
  · cases e <;> simp [toCode]

/-- C8 witness: with a path argument present, the modelled exit code is
the outcome's numeric value. -/
theorem outcome_codes_and_exit_witness :
    mainRun 2 (some minimal30)
      = toCode (isValidZipFile (some minimal30)).fst :=
  outcome_codes_and_exit.2.2.2.2.2.2.2.2.2.2.2.2.2.2.2.2.2.2.1
    2 (some minimal30) (by decide)

/-- C9: the compression-method label is a pure lookup over the fixed
enumeration (8 maps to deflated; every value outside the enumeration,
i.e. every method at least 20 other than 98 — the switch maps exactly
0..19 and 98 — maps to unknown, 99 among them) and never affects the
validation outcome: two inputs that differ only in the two
compressionMethod bytes at offsets 8 and 9 validate identically. -/
theorem compression_method_pure_label :
    compressionMethodToString 8 = "deflated"
    ∧ (∀ m : Nat, 20 ≤ m → m ≠ 98 → compressionMethodToString m = "unknown")
    ∧ compressionMethodToString 99 = "unknown"
    ∧ ∀ (pre suf : List Byte) (a1 a2 b1 b2 : Byte), pre.length = 8 →
        isValidZipFile (some (pre ++ a1 :: a2 :: suf))
          = isValidZipFile (some (pre ++ b1 :: b2 :: suf)) := by
  refine ⟨rfl, fun m hm h98 => ?_, rfl, fun pre suf a1 a2 b1 b2 hpre => ?_⟩
  · unfold compressionMethodToString
    split <;> first | rfl | omega
  · have hm : magicOk (pre ++ a1 :: a2 :: suf)
        = magicOk (pre ++ b1 :: b2 :: suf) := by
      unfold magicOk
      rw [readBytes_append pre (a1 :: a2 :: suf) 0 4 (by omega),
        readBytes_append pre (b1 :: b2 :: suf) 0 4 (by omega)]
    have hd : declaredTrailer (pre ++ a1 :: a2 :: suf)
        = declaredTrailer (pre ++ b1 :: b2 :: suf) := by
      unfold declaredTrailer
      rw [readBytes_skip2 pre suf a1 a2 b1 b2 26 2 hpre (by omega),
        readBytes_skip2 pre suf a1 a2 b1 b2 28 2 hpre (by omega),
        readBytes_skip2 pre suf a1 a2 b1 b2 18 4 hpre (by omega)]
    have hlen : (pre ++ a1 :: a2 :: suf).length
        = (pre ++ b1 :: b2 :: suf).length := by
      simp
    rw [isValidZipFile_char, isValidZipFile_char, hm, hd, hlen]

/-- C9 witness: the unmapped method value 99 gets the unknown label, and
changing the method bytes from 8 to 99 in an otherwise fixed header leaves
the validation result unchanged. -/
theorem compression_method_pure_label_witness :
    compressionMethodToString 99 = "unknown"
    ∧ methodPre.length = 8
    ∧ isValidZipFile (some (methodPre ++ 8 :: 0 :: methodSuf))
        = isValidZipFile (some (methodPre ++ 99 :: 0 :: methodSuf)) :=
  ⟨compression_method_pure_label.2.1 99 (by decide) (by decide),
    by decide,
    compression_method_pure_label.2.2.2 methodPre methodSuf 8 0 99 0
      (by decide)⟩

/-- C10: the validation result depends only on the first 30 bytes and the
total length: two openable sources agreeing on their first 30 bytes and on
their total length yield the identical outcome and message, whatever the
bytes at offset 30 and beyond. -/
theorem outcome_depends_on_prefix_and_length (d1 d2 : List Byte)
    (hpre : d1.take 30 = d2.take 30) (hlen : d1.length = d2.length) :
    isValidZipFile (some d1) = isValidZipFile (some d2) := by
  have hs : ∀ off w : Nat, off + w ≤ 30 →
      readBytes d1 off w = readBytes d2 off w := by
    intro off w h
    have h1 : d1.take (off + w) = d2.take (off + w) := by
      have h2 := congrArg (List.take (off + w)) hpre
      rwa [List.take_take, List.take_take, Nat.min_eq_left h] at h2
    unfold readBytes
    rw [List.take_drop, List.take_drop, h1]
  have hm : magicOk d1 = magicOk d2 := by
    unfold magicOk
    rw [hs 0 4 (by omega)]
  have hd : declaredTrailer d1 = declaredTrailer d2 := by
    unfold declaredTrailer
    rw [hs 26 2 (by omega), hs 28 2 (by omega), hs 18 4 (by omega)]
  rw [isValidZipFile_char, isValidZipFile_char, hm, hd, hlen]

/-- C10 witness: appending the trailing byte 0 or the trailing byte 255 to
the minimal header yields identical validation results. -/
theorem outcome_depends_on_prefix_and_length_witness :
    (minimal30 ++ [0]).take 30 = (minimal30 ++ [255]).take 30
    ∧ (minimal30 ++ [0]).length = (minimal30 ++ [255]).length
    ∧ isValidZipFile (some (minimal30 ++ [0]))
        = isValidZipFile (some (minimal30 ++ [255])) :=
  ⟨by decide, by decide,
    outcome_depends_on_prefix_and_length (minimal30 ++ [0])
      (minimal30 ++ [255]) (by decide) (by decide)⟩
